import Mathlib

/-!
Verification of `scaper.py`, a real-estate listing scraper for adresowo.pl.

The Python source is shallowly embedded:
* the numeric-normalization helpers `_parse_price`, `_parse_area`,
  `_parse_rooms` and `_clean` become pure functions on `String`
  (Python `float` values are modelled exactly as rationals `ℚ`;
  Python `\d` / `int` digits are modelled as ASCII digits;
  Python `str.lower` is modelled on ASCII plus the Polish letters
  occurring on the site);
* a listing fragment (`div[data-offer-card]`) is abstracted by the
  results of the fixed structural queries `parse_listing` performs on
  it (structure `Offer`);
* the page driver `main` becomes a function of a fetch oracle
  `Nat → FetchResult` mapping a page number to either a request error
  or the list of listing fragments found on that page.
-/

/-- Python whitespace (the characters stripped by `str.strip()` and matched
by `\s` that can occur here), including the no-break space `\xa0`. -/
def isWs (c : Char) : Bool :=
  c == ' ' || c == '\t' || c == '\n' || c == '\x0d' ||
  c == '\x0b' || c == '\x0c' || c == '\xa0'

/-- Numeric value of a list of ASCII digits, most significant first
(Python `int` on a digit string; `digitsVal [] = 0`). -/
def digitsVal (cs : List Char) : Nat :=
  cs.foldl (fun a c => a * 10 + (c.toNat - '0'.toNat)) 0

/-- `begins n h`: `n` is a prefix of `h` (char-by-char comparison). -/
def begins : List Char → List Char → Bool
  | [], _ => true
  | _ :: _, [] => false
  | a :: as, b :: bs => a == b && begins as bs

/-- `containsSeq n h`: `n` occurs contiguously somewhere in `h`
(Python `in` on strings). -/
def containsSeq (n : List Char) : List Char → Bool
  | [] => begins n []
  | c :: t => begins n (c :: t) || containsSeq n t

/-- Lowercasing as done by Python `str.lower()`, restricted to ASCII and
the Polish uppercase letters (the only cased characters relevant to the
site's text). -/
def pyLower (c : Char) : Char :=
  if 'A' ≤ c ∧ c ≤ 'Z' then Char.ofNat (c.toNat + 32)
  else if c = 'Ą' then 'ą'
  else if c = 'Ć' then 'ć'
  else if c = 'Ę' then 'ę'
  else if c = 'Ł' then 'ł'
  else if c = 'Ń' then 'ń'
  else if c = 'Ó' then 'ó'
  else if c = 'Ś' then 'ś'
  else if c = 'Ź' then 'ź'
  else if c = 'Ż' then 'ż'
  else c

/-- Python `str.strip()` on a character list. -/
def pyStrip (cs : List Char) : List Char :=
  ((cs.dropWhile isWs).reverse.dropWhile isWs).reverse

/-- `_clean`: removes no-break spaces and strips surrounding whitespace
(`s.replace('\xa0', ' ').strip()`; empty/absent text maps to `''`). -/
def _clean (s : String) : String :=
  ⟨pyStrip (s.data.map (fun c => if c == '\xa0' then ' ' else c))⟩

/-- `_parse_price`: `re.sub(r'[^\d]', '', s)` then `int`, kept only if
positive (`'635 000 zł'` → `635000`). -/
def _parse_price (s : String) : Option Nat :=
  if s.data = [] then none
  else
    let digits := s.data.filter Char.isDigit
    if digits = [] then none
    else
      let n := digitsVal digits
      if 0 < n then some n else none

/-- `','` → `'.'`, the normalization `s.replace(',', '.')` applies per
character. -/
def commaToDot (c : Char) : Char := if c == ',' then '.' else c

/-- Characters matched by the class `[\d.]`. -/
def isDigDot (c : Char) : Bool := c.isDigit || c == '.'

/-- Leftmost maximal run of characters satisfying `p`
(`re.search(r'[\d.]+', s)` instantiates `p := isDigDot`). -/
def firstRun (p : Char → Bool) : List Char → Option (List Char)
  | [] => none
  | c :: t => if p c then some (c :: t.takeWhile p) else firstRun p t

/-- Python `float` on a token drawn from `[\d.]+`, modelled exactly as a
rational: it succeeds iff the token has at least one digit and at most
one dot, with value (digits with the dot removed) over `10 ^ |fraction|`. -/
def pyFloat (cs : List Char) : Option ℚ :=
  if cs.all isDigDot && cs.any Char.isDigit &&
      (cs.filter (· == '.')).length ≤ 1 then
    let ip := cs.takeWhile (· ≠ '.')
    let fp := (cs.dropWhile (· ≠ '.')).drop 1
    some (mkRat (digitsVal (ip ++ fp)) (10 ^ fp.length))
  else none

/-- `_parse_area`: normalize decimal comma, take the first `[\d.]+` run,
parse as float, keep only positive values (`'50,25 m²'` → `50.25`). -/
def _parse_area (s : String) : Option ℚ :=
  if s.data = [] then none
  else
    match firstRun isDigDot (s.data.map commaToDot) with
    | none => none
    | some tok =>
      match pyFloat tok with
      | none => none
      | some q => if 0 < q then some q else none

/-- Stage 1 of `_parse_rooms`: the anchored pattern
`^\s*(\d+)\s*(?:pok\.?)?\s*$` (IGNORECASE) applied to the stripped
string; returns the captured integer on a match. -/
def roomsAnchored (cs : List Char) : Option Nat :=
  let cs1 := cs.dropWhile isWs
  let ds := cs1.takeWhile Char.isDigit
  if ds = [] then none
  else
    let rest := (cs1.dropWhile Char.isDigit).dropWhile isWs
    let rest2 :=
      if begins ['p', 'o', 'k'] (rest.map pyLower) then
        match rest.drop 3 with
        | '.' :: r => r
        | r => r
      else rest
    if rest2.dropWhile isWs = [] then some (digitsVal ds) else none

/-- One attempt of the stage-2 pattern `(\d+)\s*pok` (IGNORECASE) at a
fixed start position: a nonempty digit run, optional whitespace, then
`pok`. -/
def matchAtRooms (cs : List Char) : Option Nat :=
  let ds := cs.takeWhile Char.isDigit
  if ds = [] then none
  else
    let rest := (cs.dropWhile Char.isDigit).dropWhile isWs
    if begins ['p', 'o', 'k'] (rest.map pyLower) then some (digitsVal ds)
    else none

/-- Stage 2 of `_parse_rooms`: `re.search(r'(\d+)\s*pok', s, IGNORECASE)`,
the leftmost match (greedy digit run; backtracking cannot produce a match
a maximal-run attempt misses, since a digit is neither `\s` nor `p`). -/
def roomsFallback : List Char → Option Nat
  | [] => none
  | c :: t =>
    match matchAtRooms (c :: t) with
    | some n => some n
    | none => roomsFallback t

/-- `_parse_rooms`: anchored whole-string pattern first, substring
fallback second, positivity check on the captured integer
(`'3 pok.'` → `3`, `'kawalerka'` → absent). -/
def _parse_rooms (s : String) : Option Nat :=
  if s.data = [] then none
  else
    match roomsAnchored (pyStrip s.data) with
    | some n => if 0 < n then some n else none
    | none =>
      match roomsFallback s.data with
      | some n => if 0 < n then some n else none
      | none => none

/-- `BASE_URL = 'https://adresowo.pl'`. -/
def BASE_URL : String := "https://adresowo.pl"

/-- `CSV_HEADERS`, the ten fixed column names. -/
def CSV_HEADERS : List String :=
  ["ID", "Cena", "Metraż", "Pokoje", "Lokalizacja", "Ulica", "Typ",
   "Bez Pośredników", "Opis", "Link"]

/-- The marker phrase `'bez pośredników'` tested against the lowercased
fragment text. -/
def markerChars : List Char := "bez pośredników".data

/--
A listing fragment (`div[data-offer-card]`), abstracted by the results of
the fixed structural queries `parse_listing` performs on it:
* `text`: `offer.get_text()`;
* `dataId`: the `data-id` attribute when present;
* `stats`: one entry per `p.flex-auto.text-base.text-neutral-800` element,
  holding the text of its `span.font-bold` child when that child exists;
* `href`: the `href` of the first `a[href]` tag when such a tag exists;
* `location`, `street`, `description`: the texts of
  `span.line-clamp-1.font-bold`, `span.line-clamp-1.text-neutral-900`
  and `p.line-clamp-4` when present.
-/
structure Offer where
  text : String
  dataId : Option String
  stats : List (Option String)
  href : Option String
  location : Option String
  street : Option String
  description : Option String
deriving DecidableEq

/-- One CSV field of a row: the source builds rows mixing strings,
`int`s (price, rooms) and `float`s (area, modelled as `ℚ`). -/
inductive Cell where
  | str (s : String)
  | int (n : Nat)
  | rat (q : ℚ)
deriving DecidableEq

/-- Text of the `i`-th stat's bold child:
`if len(stats) > i: bold = stats[i].find('span', class_='font-bold');
x = _clean(bold.get_text()) if bold else ''` (otherwise `x` stays `''`). -/
def statText (stats : List (Option String)) (i : Nat) : String :=
  match stats.get? i with
  | some (some t) => _clean t
  | some none => ""
  | none => ""

/-- `_clean` of an optional element's text, `''` when absent. -/
def optClean : Option String → String
  | some t => _clean t
  | none => ""

/-- The link field: `link = ''`; `if link_tag and link_tag.get('href'):
link = (BASE_URL + href) if not href.startswith('http') else href`. -/
def linkField (href : Option String) : String :=
  match href with
  | none => ""
  | some h =>
    if h.data = [] then ""
    else if begins "http".data h.data then h
    else BASE_URL ++ h

/-- `parse_listing(offer)`: extracts the ten fields of one listing and
returns them as a row; in this embedding the `try` body cannot raise, so
the `except`-branch result `None` never occurs. -/
def parse_listing (o : Offer) : Option (List Cell) :=
  let text_lower := o.text.data.map pyLower
  let offer_id := o.dataId.getD ""
  let price := statText o.stats 0
  let area := statText o.stats 1
  let rooms := statText o.stats 2
  let link := linkField o.href
  let location := optClean o.location
  let street := optClean o.street
  let is_private := if containsSeq markerChars text_lower then "Tak" else "Nie"
  let description := optClean o.description
  some
    [Cell.str offer_id,
     (match _parse_price price with | some n => Cell.int n | none => Cell.str ""),
     (match _parse_area area with | some q => Cell.rat q | none => Cell.str ""),
     (match _parse_rooms rooms with | some n => Cell.int n | none => Cell.str ""),
     Cell.str location,
     Cell.str street,
     Cell.str "Mieszkanie",
     Cell.str is_private,
     Cell.str description,
     Cell.str link]

/-- Outcome of fetching one page: a request-level error
(`requests.RequestException`, including non-2xx raised by
`raise_for_status`), or the page's list of listing fragments
(`soup.find_all('div', {'data-offer-card': True})`). -/
inductive FetchResult where
  | err
  | ok (offers : List Offer)
deriving DecidableEq

/-- The page loop of `main` over a list of page numbers: on a fetch error
the page is skipped (`continue`), on an empty fragment list the loop
stops (`break`), otherwise every fragment's row is appended to the
accumulator. Returns the pages actually fetched (in order) and the
accumulated rows (page order, then in-page fragment order). -/
def loopPages (fetch : Nat → FetchResult) : List Nat → List Nat × List (List Cell)
  | [] => ([], [])
  | p :: rest =>
    match fetch p with
    | FetchResult.err =>
      let r := loopPages fetch rest
      (p :: r.1, r.2)
    | FetchResult.ok offers =>
      if offers = [] then ([p], [])
      else
        let r := loopPages fetch rest
        (p :: r.1, offers.filterMap parse_listing ++ r.2)

/-- Result of a run of `main`: which pages were fetched, and the written
CSV content (`none` when nothing was collected and writing is skipped). -/
structure MainResult where
  fetched : List Nat
  output : Option (List (List Cell))
deriving DecidableEq

/-- The header row written by `writer.writerow(CSV_HEADERS)`. -/
def csvHeaderRow : List Cell := CSV_HEADERS.map Cell.str

/-- `main(city, pages, output_file)`, with the network abstracted by
`fetch`: pages `1..pages` are processed by the loop; afterwards, if data
was collected, the header row and all accumulated rows are written. -/
def scraperMain (fetch : Nat → FetchResult) (pages : Nat) : MainResult :=
  let r := loopPages fetch (List.range' 1 pages)
  { fetched := r.1
    output := if r.2 = [] then none else some (csvHeaderRow :: r.2) }

/-- A character allowed inside a URI scheme after its first letter. -/
def isSchemeTail (c : Char) : Bool :=
  c.isAlphanum || c == '+' || c == '-' || c == '.'

/-- Stated from the spec's wording, for comparison with the source's
link test: a reference "starts with a scheme" when it begins with a
letter followed by scheme characters and a colon (RFC 3986
`scheme = ALPHA *( ALPHA / DIGIT / "+" / "-" / "." )` then `":"`). -/
def specStartsWithScheme (s : String) : Bool :=
  match s.data with
  | [] => false
  | c :: t => c.isAlpha && ((t.dropWhile isSchemeTail).head? == some ':')

/-- A well-formed listing fragment: all queried pieces present. -/
def offerA : Offer :=
  { text := "Mieszkanie, Łódź Śródmieście, bez pośredników"
    dataId := some "a1"
    stats := [some "635 000 zł", some "50 m²", some "3 pok."]
    href := some "/oferta/1"
    location := some "Łódź Śródmieście"
    street := some "Piotrkowska"
    description := some "Ładne mieszkanie." }

/-- A fragment whose marker phrase appears in uppercase and whose link
is already absolute. -/
def offerB : Offer :=
  { text := "Oferta BEZ POŚREDNIKÓW!"
    dataId := some "b2"
    stats := [some "500 000 zł", some "45,5 m²", some "2"]
    href := some "https://adresowo.pl/oferta/2"
    location := none
    street := none
    description := none }

/-- A fragment with no stat elements, no id and no link. -/
def offerC : Offer :=
  { text := "Agencja XYZ zaprasza"
    dataId := none
    stats := []
    href := none
    location := some "Łódź"
    street := none
    description := some "opis" }

/-- A fragment whose link reference carries a non-`http` scheme. -/
def offerFtp : Offer :=
  { text := "x"
    dataId := some "f1"
    stats := []
    href := some "ftp://x.pl/a"
    location := none
    street := none
    description := none }

/-- A fragment with the relative link reference `/oferta/123`. -/
def offerRel : Offer :=
  { text := "y"
    dataId := some "r1"
    stats := []
    href := some "/oferta/123"
    location := none
    street := none
    description := none }

/-- Fetch oracle for the end-to-end scenario: page 1 yields three
well-formed fragments, page 2 yields zero fragments, later pages (never
reached) would yield fragments again. -/
def fetchC1 : Nat → FetchResult := fun p =>
  if p = 1 then FetchResult.ok [offerA, offerB, offerC]
  else if p = 2 then FetchResult.ok []
  else FetchResult.ok [offerA]

/-- Fetch oracle for the fetch-error scenario: page 2 fails, pages 1
and 3 succeed. -/
def fetchC8 : Nat → FetchResult := fun p =>
  if p = 1 then FetchResult.ok [offerA]
  else if p = 2 then FetchResult.err
  else FetchResult.ok [offerB]

/-- Fetch oracle on which every request fails. -/
def fetchErrAll : Nat → FetchResult := fun _ => FetchResult.err

/-! ## Helper lemmas -/

theorem data_ne_nil_of_ne {s : String} (h : s ≠ "") : s.data ≠ [] :=
  fun hd => h (String.ext (by simp [hd]))

theorem digit_not_ws {c : Char} (h : c.isDigit = true) : isWs c = false := by
  by_contra hw
  simp only [Bool.not_eq_false, isWs, Bool.or_eq_true, beq_iff_eq] at hw
  rcases hw with ((((((h1 | h1) | h1) | h1) | h1) | h1) | h1) <;>
    subst h1 <;> simp [Char.isDigit] at h

theorem ws_not_digit {c : Char} (h : isWs c = true) : c.isDigit = false := by
  by_contra hd
  simp only [Bool.not_eq_false] at hd
  rw [digit_not_ws hd] at h
  exact Bool.false_ne_true h

theorem takeWhile_dropWhile_append_stop {p : Char → Bool} (l₁ l₂ : List Char)
    (h₁ : ∀ a ∈ l₁, p a = true) (h₂ : ∀ a, l₂.head? = some a → p a = false) :
    (l₁ ++ l₂).takeWhile p = l₁ ∧ (l₁ ++ l₂).dropWhile p = l₂ := by
  induction l₁ with
  | nil =>
    cases l₂ with
    | nil => simp
    | cons a t =>
      have ha := h₂ a rfl
      simp [List.takeWhile, List.dropWhile, ha]
  | cons a t ih =>
    have ha : p a = true := h₁ a (by simp)
    have ht := ih (fun b hb => h₁ b (by simp [hb]))
    simp [List.takeWhile, List.dropWhile, ha, ht.1, ht.2]

theorem parse_price_pos (s : String) (n : Nat) (h : _parse_price s = some n) :
    0 < n := by
  by_cases h1 : s.data = []
  · simp [_parse_price, h1] at h
  · by_cases h2 : s.data.filter Char.isDigit = []
    · simp [_parse_price, h1, h2] at h
    · by_cases h3 : 0 < digitsVal (s.data.filter Char.isDigit)
      · simp [_parse_price, h1, h2, h3] at h
        exact h ▸ h3
      · simp [_parse_price, h1, h2, h3] at h

theorem parse_area_pos (s : String) (q : ℚ) (h : _parse_area s = some q) :
    0 < q := by
  by_cases h1 : s.data = []
  · simp [_parse_area, h1] at h
  · cases hf : firstRun isDigDot (s.data.map commaToDot) with
    | none => simp [_parse_area, h1, hf] at h
    | some tok =>
      cases hq : pyFloat tok with
      | none => simp [_parse_area, h1, hf, hq] at h
      | some v =>
        by_cases h3 : 0 < v
        · simp [_parse_area, h1, hf, hq, h3] at h
          exact h ▸ h3
        · simp [_parse_area, h1, hf, hq, h3] at h

theorem parse_rooms_pos (s : String) (n : Nat) (h : _parse_rooms s = some n) :
    0 < n := by
  by_cases h1 : s.data = []
  · simp [_parse_rooms, h1] at h
  · cases ha : roomsAnchored (pyStrip s.data) with
    | some m =>
      by_cases h3 : 0 < m
      · simp [_parse_rooms, h1, ha, h3] at h
        exact h ▸ h3
      · simp [_parse_rooms, h1, ha, h3] at h
    | none =>
      cases hb : roomsFallback s.data with
      | none => simp [_parse_rooms, h1, ha, hb] at h
      | some m =>
        by_cases h3 : 0 < m
        · simp [_parse_rooms, h1, ha, hb, h3] at h
          exact h ▸ h3
        · simp [_parse_rooms, h1, ha, hb, h3] at h

theorem roomsAnchored_all_digits (ds : List Char) (hne : ds ≠ [])
    (hds : ds.all Char.isDigit = true) :
    roomsAnchored ds = some (digitsVal ds) := by
  cases ds with
  | nil => exact absurd rfl hne
  | cons c t =>
    have hall : ∀ a ∈ c :: t, Char.isDigit a = true := by
      intro a ha
      exact List.all_eq_true.mp hds a ha
    have hws : isWs c = false := digit_not_ws (hall c (by simp))
    obtain ⟨htake, hdrop⟩ :=
      takeWhile_dropWhile_append_stop (c :: t) [] hall (by intro a ha; simp at ha)
    rw [List.append_nil] at htake hdrop
    have hd1 : (c :: t).dropWhile isWs = c :: t := by
      simp [List.dropWhile_cons, hws]
    simp [roomsAnchored, hd1, htake, hdrop, begins]

/-! ## Claims -/

/-- C2: `_parse_price` strips all non-digit characters and returns the
resulting integer when positive, `none` otherwise: an empty digit-result
or a non-positive parsed value yields `none`; `"635 000 zł"` parses to
`635000`, while `"0 zł"`, `""` and `"zł"` parse to `none`. -/
theorem C2_parse_price_spec :
    (∀ s : String, s.data.filter Char.isDigit = [] → _parse_price s = none) ∧
    (∀ s : String, digitsVal (s.data.filter Char.isDigit) = 0 →
        _parse_price s = none) ∧
    (∀ s : String, 0 < digitsVal (s.data.filter Char.isDigit) →
        _parse_price s = some (digitsVal (s.data.filter Char.isDigit))) ∧
    _parse_price "635 000 zł" = some 635000 ∧
    _parse_price "0 zł" = none ∧
    _parse_price "" = none ∧
    _parse_price "zł" = none := by
  refine ⟨?_, ?_, ?_, by decide, by decide, by decide, by decide⟩
  · intro s h
    by_cases h1 : s.data = [] <;> simp [_parse_price, h1, h]
  · intro s h
    by_cases h1 : s.data = []
    · simp [_parse_price, h1]
    · by_cases h2 : s.data.filter Char.isDigit = []
      · simp [_parse_price, h1, h2]
      · simp [_parse_price, h1, h2, h]
  · intro s h
    have h1 : s.data ≠ [] := by
      intro hd
      rw [hd] at h
      simp [digitsVal] at h
    have h2 : s.data.filter Char.isDigit ≠ [] := by
      intro hg
      rw [hg] at h
      simp [digitsVal] at h
    simp [_parse_price, h1, h2, h]

/-- Witness for C2 at the concrete input `"7 m"`. -/
theorem C2_parse_price_witness :
    0 < digitsVal ("7 m".data.filter Char.isDigit) ∧ _parse_price "7 m" = some 7 :=
  ⟨by decide, C2_parse_price_spec.2.2.1 "7 m" (by decide)⟩

/-- C3: `_parse_rooms` is a two-stage match — the anchored whole-string
pattern (bare integer, optionally followed by `pok` with optional
period) first, the substring fallback second — and a non-positive or
unparseable result is `none`; `"3"`, `"3 pok."` and `"3 pok"` parse to
`3`, while `"kawalerka"` and `"0"` parse to `none`. -/
theorem C3_parse_rooms_spec :
    (∀ (s : String) (n : Nat), s ≠ "" →
        roomsAnchored (pyStrip s.data) = some n → 0 < n →
        _parse_rooms s = some n) ∧
    (∀ (s : String) (n : Nat), s ≠ "" →
        roomsAnchored (pyStrip s.data) = none →
        roomsFallback s.data = some n → 0 < n →
        _parse_rooms s = some n) ∧
    (∀ (s : String) (n : Nat), _parse_rooms s = some n → 0 < n) ∧
    (∀ s : String, roomsAnchored (pyStrip s.data) = none →
        roomsFallback s.data = none → _parse_rooms s = none) ∧
    (∀ ds : List Char, ds ≠ [] → ds.all Char.isDigit = true →
        roomsAnchored ds = some (digitsVal ds)) ∧
    _parse_rooms "3" = some 3 ∧
    _parse_rooms "3 pok." = some 3 ∧
    _parse_rooms "3 pok" = some 3 ∧
    _parse_rooms "kawalerka" = none ∧
    _parse_rooms "0" = none := by
  refine ⟨?_, ?_, parse_rooms_pos, ?_, roomsAnchored_all_digits,
    by decide, by decide, by decide, by decide, by decide⟩
  · intro s n hne ha hn
    simp [_parse_rooms, data_ne_nil_of_ne hne, ha, hn]
  · intro s n hne ha hb hn
    simp [_parse_rooms, data_ne_nil_of_ne hne, ha, hb, hn]
  · intro s ha hb
    by_cases h1 : s.data = [] <;> simp [_parse_rooms, h1, ha, hb]

/-- Witness for C3 at the concrete input `"3 pok."`. -/
theorem C3_parse_rooms_witness :
    roomsAnchored (pyStrip "3 pok.".data) = some 3 ∧ _parse_rooms "3 pok." = some 3 :=
  ⟨by decide, C3_parse_rooms_spec.1 "3 pok." 3 (by decide) (by decide) (by decide)⟩

/-- C4: `_parse_area` normalizes decimal commas to decimal points,
extracts the first run of digits/decimal points and parses it as a
float; a non-positive or unparseable result is `none`; `"50 m²"` parses
to `50.0`, `"50,25 m²"` to `50.25` (= `201/4`) and `"0 m²"` to `none`. -/
theorem C4_parse_area_spec :
    (∀ (s : String) (q : ℚ), _parse_area s = some q → 0 < q) ∧
    (∀ s : String, _parse_area s = _parse_area ⟨s.data.map commaToDot⟩) ∧
    _parse_area "50 m²" = some 50 ∧
    _parse_area "50,25 m²" = some (mkRat 201 4) ∧
    _parse_area "0 m²" = none := by
  refine ⟨parse_area_pos, ?_, by decide, by decide, by decide⟩
  intro s
  have hmap : (s.data.map commaToDot).map commaToDot = s.data.map commaToDot := by
    rw [List.map_map]
    have hfun : commaToDot ∘ commaToDot = commaToDot := by
      funext c
      by_cases hc : c = ','
      · subst hc
        decide
      · simp [commaToDot, hc]
    rw [hfun]
  by_cases h1 : s.data = []
  · simp [_parse_area, h1]
  · have h2 : s.data.map commaToDot ≠ [] := by
      simp [List.map_eq_nil_iff, h1]
    simp only [_parse_area, h1, if_false, String.data]
    simp [h1, h2, hmap]

/-- Witness for C4 at the concrete input `"50,25 m²"`. -/
theorem C4_parse_area_witness :
    _parse_area "50,25 m²" = some (mkRat 201 4) ∧ 0 < mkRat 201 4 :=
  ⟨by decide, C4_parse_area_spec.1 "50,25 m²" (mkRat 201 4) (by decide)⟩

theorem matchAtRooms_here (r ds w : List Char) (hne : ds ≠ [])
    (hds : ds.all Char.isDigit = true) (hws : w.all isWs = true) :
    matchAtRooms (ds ++ (w ++ ('p' :: 'o' :: 'k' :: r))) = some (digitsVal ds) := by
  have hds' : ∀ a ∈ ds, Char.isDigit a = true := fun a ha =>
    List.all_eq_true.mp hds a ha
  have hstop : ∀ a, (w ++ ('p' :: 'o' :: 'k' :: r)).head? = some a →
      Char.isDigit a = false := by
    intro a ha
    cases w with
    | nil =>
      simp at ha
      subst ha
      decide
    | cons b t =>
      simp at ha
      subst ha
      exact ws_not_digit (List.all_eq_true.mp hws b (by simp))
  obtain ⟨htake, hdrop⟩ :=
    takeWhile_dropWhile_append_stop ds (w ++ ('p' :: 'o' :: 'k' :: r)) hds' hstop
  have hwstop : ∀ a, ('p' :: 'o' :: 'k' :: r).head? = some a → isWs a = false := by
    intro a ha
    simp at ha
    subst ha
    decide
  obtain ⟨_, hdrop2⟩ :=
    takeWhile_dropWhile_append_stop w ('p' :: 'o' :: 'k' :: r)
      (fun a ha => List.all_eq_true.mp hws a ha) hwstop
  have hp : pyLower 'p' = 'p' := by decide
  have ho : pyLower 'o' = 'o' := by decide
  have hk : pyLower 'k' = 'k' := by decide
  simp [matchAtRooms, htake, hdrop, hdrop2, hne, begins, hp, ho, hk]

theorem roomsFallback_contains (l r ds w : List Char) (hne : ds ≠ [])
    (hds : ds.all Char.isDigit = true) (hws : w.all isWs = true) :
    roomsFallback (l ++ (ds ++ (w ++ ('p' :: 'o' :: 'k' :: r)))) ≠ none := by
  have hmatch := matchAtRooms_here r ds w hne hds hws
  induction l with
  | nil =>
    cases ds with
    | nil => exact absurd rfl hne
    | cons c t =>
      simp only [List.nil_append, List.cons_append] at hmatch ⊢
      simp [roomsFallback, hmatch]
  | cons a t ih =>
    simp only [List.cons_append, roomsFallback]
    cases hm : matchAtRooms (a :: (t ++ (ds ++ (w ++ ('p' :: 'o' :: 'k' :: r))))) with
    | some k => simp
    | none => simpa using ih

/-- C10: when the anchored whole-string rooms pattern fails but the string
contains a digit run followed by optional whitespace and `pok` anywhere,
`_parse_rooms` returns the integer found by the substring fallback when
it is positive, rather than `none`; in particular `"13 pok extra"`
yields `13`. -/
theorem C10_rooms_fallback_spec :
    (∀ (s : String) (n : Nat), s ≠ "" →
        roomsAnchored (pyStrip s.data) = none →
        roomsFallback s.data = some n → 0 < n →
        _parse_rooms s = some n) ∧
    (∀ l r ds w : List Char, ds ≠ [] → ds.all Char.isDigit = true →
        w.all isWs = true →
        roomsFallback (l ++ (ds ++ (w ++ ('p' :: 'o' :: 'k' :: r)))) ≠ none) ∧
    roomsAnchored (pyStrip "13 pok extra".data) = none ∧
    _parse_rooms "13 pok extra" = some 13 := by
  refine ⟨?_, roomsFallback_contains, by decide, by decide⟩
  intro s n hne ha hb hn
  simp [_parse_rooms, data_ne_nil_of_ne hne, ha, hb, hn]

/-- Witness for C10 at the concrete input `"13 pok extra"`. -/
theorem C10_rooms_fallback_witness :
    roomsFallback "13 pok extra".data = some 13 ∧
    _parse_rooms "13 pok extra" = some 13 :=
  ⟨by decide, C10_rooms_fallback_spec.1 "13 pok extra" 13 (by decide) (by decide)
    (by decide) (by decide)⟩

/-- Counterexample to C5: the reference `"ftp://x.pl/a"` starts with a
scheme, so the claim requires it to pass through unchanged, but
`parse_listing` prefixes it with the base URL (the source tests
`href.startswith('http')`, not the presence of a scheme). -/
theorem C5_scheme_counterexample :
    specStartsWithScheme "ftp://x.pl/a" = true ∧
    offerFtp.href = some "ftp://x.pl/a" ∧
    ((parse_listing offerFtp).getD []).get? 9 =
      some (Cell.str "https://adresowo.plftp://x.pl/a") ∧
    ("https://adresowo.plftp://x.pl/a" : String) ≠ "ftp://x.pl/a" :=
  ⟨by decide, rfl, by decide, by decide⟩

/-- C5 (amended): for every extracted link reference, if the reference
does not start with the literal prefix `http` it is prefixed with the
site's base URL, and a reference starting with `http` is passed through
unchanged; an absent link element yields the empty string; relative
`/oferta/123` resolves to `https://adresowo.pl/oferta/123`. -/
theorem C5_link_resolution_amended :
    (∀ (o : Offer) (h : String) (r : List Cell), o.href = some h →
        h ≠ "" → begins "http".data h.data = false →
        parse_listing o = some r →
        r.get? 9 = some (Cell.str (BASE_URL ++ h))) ∧
    (∀ (o : Offer) (h : String) (r : List Cell), o.href = some h →
        begins "http".data h.data = true →
        parse_listing o = some r →
        r.get? 9 = some (Cell.str h)) ∧
    (∀ (o : Offer) (r : List Cell), o.href = none →
        parse_listing o = some r → r.get? 9 = some (Cell.str "")) ∧
    ((parse_listing offerRel).getD []).get? 9 =
      some (Cell.str "https://adresowo.pl/oferta/123") := by
  refine ⟨?_, ?_, ?_, by decide⟩
  · intro o h r ho hne hb hr
    simp only [parse_listing, Option.some.injEq] at hr
    subst hr
    simp [linkField, ho, data_ne_nil_of_ne hne, hb]
  · intro o h r ho hb hr
    simp only [parse_listing, Option.some.injEq] at hr
    subst hr
    have hd : h.data ≠ [] := by
      intro hd
      rw [hd] at hb
      exact absurd hb (by decide)
    simp [linkField, ho, hd, hb]
  · intro o r ho hr
    simp only [parse_listing, Option.some.injEq] at hr
    subst hr
    simp [linkField, ho]

/-- Witness for the amended C5 at the concrete reference `/oferta/123`. -/
theorem C5_link_resolution_witness :
    offerRel.href = some "/oferta/123" ∧
    ((parse_listing offerRel).getD []).get? 9 =
      some (Cell.str (BASE_URL ++ "/oferta/123")) :=
  ⟨rfl, C5_link_resolution_amended.1 offerRel "/oferta/123"
    ((parse_listing offerRel).getD []) rfl (by decide) (by decide) rfl⟩

/-- C6: a fragment with no stat sub-elements still yields a record, with
all three numeric fields absent (empty); and in every emitted record a
numeric field is either the empty string or a positive value — an
unparseable numeric text maps to the empty cell, never to zero. -/
theorem C6_missing_stats_tolerated :
    (∀ o : Offer, o.stats = [] → ∃ r, parse_listing o = some r ∧
        r.get? 1 = some (Cell.str "") ∧ r.get? 2 = some (Cell.str "") ∧
        r.get? 3 = some (Cell.str "")) ∧
    (∀ (o : Offer) (r : List Cell), parse_listing o = some r →
        (r.get? 1 = some (Cell.str "") ∨
          ∃ n : Nat, 0 < n ∧ r.get? 1 = some (Cell.int n)) ∧
        (r.get? 2 = some (Cell.str "") ∨
          ∃ q : ℚ, 0 < q ∧ r.get? 2 = some (Cell.rat q)) ∧
        (r.get? 3 = some (Cell.str "") ∨
          ∃ n : Nat, 0 < n ∧ r.get? 3 = some (Cell.int n))) ∧
    (∀ (o : Offer) (r : List Cell), parse_listing o = some r →
        (_parse_price (statText o.stats 0) = none → r.get? 1 = some (Cell.str "")) ∧
        (_parse_area (statText o.stats 1) = none → r.get? 2 = some (Cell.str "")) ∧
        (_parse_rooms (statText o.stats 2) = none → r.get? 3 = some (Cell.str ""))) := by
  refine ⟨?_, ?_, ?_⟩
  · intro o hs
    have h0 : statText o.stats 0 = "" := by rw [hs]; rfl
    have h1 : statText o.stats 1 = "" := by rw [hs]; rfl
    have h2 : statText o.stats 2 = "" := by rw [hs]; rfl
    have hp : _parse_price "" = none := by decide
    have ha : _parse_area "" = none := by decide
    have hn : _parse_rooms "" = none := by decide
    exact ⟨_, rfl, by simp [parse_listing, h0, hp], by simp [parse_listing, h1, ha],
      by simp [parse_listing, h2, hn]⟩
  · intro o r hr
    simp only [parse_listing, Option.some.injEq] at hr
    subst hr
    refine ⟨?_, ?_, ?_⟩
    · cases hp : _parse_price (statText o.stats 0) with
      | none => exact Or.inl (by simp [hp])
      | some n => exact Or.inr ⟨n, parse_price_pos _ _ hp, by simp [hp]⟩
    · cases hq : _parse_area (statText o.stats 1) with
      | none => exact Or.inl (by simp [hq])
      | some q => exact Or.inr ⟨q, parse_area_pos _ _ hq, by simp [hq]⟩
    · cases hn : _parse_rooms (statText o.stats 2) with
      | none => exact Or.inl (by simp [hn])
      | some n => exact Or.inr ⟨n, parse_rooms_pos _ _ hn, by simp [hn]⟩
  · intro o r hr
    simp only [parse_listing, Option.some.injEq] at hr
    subst hr
    exact ⟨fun hp => by simp [hp], fun ha => by simp [ha], fun hn => by simp [hn]⟩

/-- Witness for C6 at the concrete fragment `offerC` (no stat elements). -/
theorem C6_missing_stats_witness :
    offerC.stats = [] ∧ ∃ r, parse_listing offerC = some r ∧
      r.get? 1 = some (Cell.str "") ∧ r.get? 2 = some (Cell.str "") ∧
      r.get? 3 = some (Cell.str "") :=
  ⟨rfl, C6_missing_stats_tolerated.1 offerC rfl⟩

/-- C7: the `isPrivateListing` field is the `Tak` token exactly when the
fragment's lowercased full text contains the marker phrase
`bez pośredników`, and the `Nie` token otherwise. -/
theorem C7_private_marker :
    ∀ (o : Offer) (r : List Cell), parse_listing o = some r →
      (r.get? 7 = some (Cell.str "Tak") ↔
        containsSeq markerChars (o.text.data.map pyLower) = true) ∧
      (r.get? 7 = some (Cell.str "Nie") ↔
        containsSeq markerChars (o.text.data.map pyLower) = false) := by
  intro o r hr
  simp only [parse_listing, Option.some.injEq] at hr
  subst hr
  by_cases hm : containsSeq markerChars (o.text.data.map pyLower) = true
  · simp [hm]
  · simp only [Bool.not_eq_true] at hm
    simp [hm]

/-- Witness for C7 at the concrete fragment `offerB`, whose marker phrase
appears in uppercase (`BEZ POŚREDNIKÓW`). -/
theorem C7_private_marker_witness :
    containsSeq markerChars (offerB.text.data.map pyLower) = true ∧
    ((parse_listing offerB).getD []).get? 7 = some (Cell.str "Tak") :=
  ⟨by decide,
    ((C7_private_marker offerB ((parse_listing offerB).getD []) rfl).1).mpr (by decide)⟩

/-- C1: pages are processed sequentially and a page yielding zero
fragments stops the loop — pages after it are never fetched and change
nothing, while records from already-processed pages are retained; in the
concrete run where page 1 yields the three fragments `offerA`–`offerC`
and page 2 yields none, exactly pages 1 and 2 are fetched and the output
is the header row plus exactly the three extracted rows. -/
theorem C1_page_loop_early_stop :
    (∀ (fetch : Nat → FetchResult) (l rest : List Nat) (p : Nat),
        fetch p = FetchResult.ok [] →
        loopPages fetch (l ++ p :: rest) = loopPages fetch (l ++ [p])) ∧
    (scraperMain fetchC1 5).fetched = [1, 2] ∧
    (scraperMain fetchC1 5).output =
      some [csvHeaderRow, (parse_listing offerA).getD [],
        (parse_listing offerB).getD [], (parse_listing offerC).getD []] := by
  refine ⟨?_, by decide, by decide⟩
  intro fetch l rest p hp
  induction l with
  | nil => simp [loopPages, hp]
  | cons a t ih =>
    simp only [List.cons_append, loopPages]
    cases ha : fetch a with
    | err => simp [ih]
    | ok offers =>
      by_cases ho : offers = []
      · simp [ho]
      · simp [ho, ih]

/-- Witness for C1: page 2 of `fetchC1` is empty, so the pages after it
do not affect the run. -/
theorem C1_page_loop_early_stop_witness :
    fetchC1 2 = FetchResult.ok [] ∧
    loopPages fetchC1 ([1] ++ 2 :: [3, 4, 5]) = loopPages fetchC1 ([1] ++ [2]) :=
  ⟨by decide, C1_page_loop_early_stop.1 fetchC1 [1] [3, 4, 5] 2 (by decide)⟩

/-- C8: a page whose fetch fails is skipped and the loop continues with
the next page; the accumulated records are exactly those of the other
pages; concretely, with page 2 failing among pages 1–3, all three pages
are attempted and the output holds the rows of pages 1 and 3. -/
theorem C8_fetch_error_isolation :
    (∀ (fetch : Nat → FetchResult) (p : Nat) (rest : List Nat),
        fetch p = FetchResult.err →
        loopPages fetch (p :: rest) =
          (p :: (loopPages fetch rest).1, (loopPages fetch rest).2)) ∧
    (scraperMain fetchC8 3).fetched = [1, 2, 3] ∧
    (scraperMain fetchC8 3).output =
      some [csvHeaderRow, (parse_listing offerA).getD [],
        (parse_listing offerB).getD []] := by
  refine ⟨?_, by decide, by decide⟩
  intro fetch p rest hp
  simp [loopPages, hp]

/-- Witness for C8: the failing page 2 of `fetchC8` is skipped. -/
theorem C8_fetch_error_isolation_witness :
    fetchC8 2 = FetchResult.err ∧
    loopPages fetchC8 (2 :: [3]) =
      (2 :: (loopPages fetchC8 [3]).1, (loopPages fetchC8 [3]).2) :=
  ⟨by decide, C8_fetch_error_isolation.1 fetchC8 2 [3] (by decide)⟩

/-- C9: when the accumulator is non-empty the output is exactly one
header row of the ten fixed column names followed by the accumulated
rows in extraction order (page order, then in-page fragment order);
when it is empty nothing is written; absent numeric fields are the
empty cell. -/
theorem C9_output_format :
    csvHeaderRow = [Cell.str "ID", Cell.str "Cena", Cell.str "Metraż",
      Cell.str "Pokoje", Cell.str "Lokalizacja", Cell.str "Ulica",
      Cell.str "Typ", Cell.str "Bez Pośredników", Cell.str "Opis",
      Cell.str "Link"] ∧
    (∀ (fetch : Nat → FetchResult) (pages : Nat),
        (loopPages fetch (List.range' 1 pages)).2 ≠ [] →
        (scraperMain fetch pages).output =
          some (csvHeaderRow :: (loopPages fetch (List.range' 1 pages)).2)) ∧
    (∀ (fetch : Nat → FetchResult) (pages : Nat),
        (loopPages fetch (List.range' 1 pages)).2 = [] →
        (scraperMain fetch pages).output = none) ∧
    (∀ (fetch : Nat → FetchResult) (p : Nat) (rest : List Nat)
        (offers : List Offer),
        fetch p = FetchResult.ok offers → offers ≠ [] →
        (loopPages fetch (p :: rest)).2 =
          offers.filterMap parse_listing ++ (loopPages fetch rest).2) ∧
    (∀ (o : Offer) (r : List Cell), parse_listing o = some r →
        (_parse_price (statText o.stats 0) = none →
          r.get? 1 = some (Cell.str "")) ∧
        (_parse_area (statText o.stats 1) = none →
          r.get? 2 = some (Cell.str "")) ∧
        (_parse_rooms (statText o.stats 2) = none →
          r.get? 3 = some (Cell.str ""))) := by
  refine ⟨rfl, ?_, ?_, ?_, ?_⟩
  · intro fetch pages h
    simp [scraperMain, h]
  · intro fetch pages h
    simp [scraperMain, h]
  · intro fetch p rest offers hp ho
    simp [loopPages, hp, ho]
  · intro o r hr
    simp only [parse_listing, Option.some.injEq] at hr
    subst hr
    exact ⟨fun hp => by simp [hp], fun ha => by simp [ha], fun hn => by simp [hn]⟩

/-- Witness for C9: a run where every fetch fails collects nothing and
writes nothing. -/
theorem C9_output_format_witness :
    (loopPages fetchErrAll (List.range' 1 2)).2 = [] ∧
    (scraperMain fetchErrAll 2).output = none :=
  ⟨by decide, C9_output_format.2.2.1 fetchErrAll 2 (by decide)⟩
